import Mathlib

/-!
Verification of the student CRUD service in `myapi.py`.

The service keeps an in-memory mapping from integer student ids to student
records and exposes six HTTP endpoints over it.  We embed the store as an
association list `List (Int × _)` — Python dictionaries preserve insertion
order, new keys are appended at the end, assignment to an existing key keeps
its position, and `del` removes the entry — and each endpoint as a pure
function from the store and the request parameters to (a possibly updated
store and) a response, an HTTP status code paired with a body.

Request validation performed by the framework before the handler runs
(the `gt=0, lt=4` bounds on the `get-student` path parameter, the required
`test` query parameter) is embedded as a guard at the front of the endpoint
function; optional parameters are `Option`-typed, `none` meaning absent.
-/

namespace MyApi

/-- A complete student record, mirroring the pydantic model `Student`
(`name: str`, `age: int`, `year: str`, all required). -/
structure Student where
  name : String
  age : Int
  year : String
deriving DecidableEq, Repr

/-- The partial-update body, mirroring the pydantic model `UpdateStudent`
(`name: Optional[str] = None`, `age: Optional[int] = None`,
`year: Optional[str] = None`); `none` is the parsed form of an absent field. -/
structure UpdateStudent where
  name : Option String
  age : Option Int
  year : Option String
deriving DecidableEq, Repr

/-- Response bodies at the granularity the service distinguishes them:
a serialized student record, a one-key object such as
`("Error", "Student exists")` or `("detail", "Student not found")`, or the
framework-generated 422 validation-error body (whose exact shape the
handlers never produce and we leave abstract). -/
inductive Body where
  | studentBody : Student → Body
  | msg : String → String → Body
  | validationError : Body
deriving DecidableEq, Repr

/-- An HTTP response: status code and body. -/
abbrev Response := Nat × Body

/-- The store: insertion-ordered association list from id to record. -/
abbrev Store := List (Int × Student)

/-- The module-level `students` dictionary seeding the store with ids 1 and 2
(lines 7-18 of `myapi.py`). -/
def studentsInit : Store :=
  [ (1, { name := "anurag adarsh", age := 20, year := "year 26" }),
    (2, { name := "mohit", age := 22, year := "year 26" }) ]

/-- Membership test, the meaning of Python's `student_id in students`. -/
def containsId (st : Store) (id : Int) : Bool :=
  match st with
  | [] => false
  | (k, _) :: rest => if k = id then true else containsId rest id

/-- Lookup, the meaning of Python's `students[student_id]` on a present key. -/
def lookupId (st : Store) (id : Int) : Option Student :=
  match st with
  | [] => none
  | (k, v) :: rest => if k = id then some v else lookupId rest id

/-- Assignment to an existing key, `students[student_id] = v`: the entry keeps
its position in iteration order. -/
def setId (st : Store) (id : Int) (v : Student) : Store :=
  match st with
  | [] => []
  | (k, w) :: rest => if k = id then (k, v) :: rest else (k, w) :: setId rest id v

/-- Deletion, `del students[student_id]`: the entry is removed, the rest of
the order is unchanged. -/
def eraseId (st : Store) (id : Int) : Store :=
  match st with
  | [] => []
  | (k, w) :: rest => if k = id then rest else (k, w) :: eraseId rest id

/-- `GET /` (lines 31-33): always the fixed object `("name", "First Data")`. -/
def index : Response := (200, Body.msg "name" "First Data")

/-- `GET /get-student/{student_id}` (lines 36-42).  The path parameter is
declared `Path(..., gt=0, lt=4)`, so any id outside the open interval (0, 4)
is rejected with 422 before the handler runs; inside the bounds the handler
404s on a missing id and otherwise returns the stored record. -/
def get_student (students : Store) (student_id : Int) : Response :=
  if 0 < student_id ∧ student_id < 4 then
    match lookupId students student_id with
    | none => (404, Body.msg "detail" "Student not found")
    | some s => (200, Body.studentBody s)
  else (422, Body.validationError)

/-- The `for student_id in students` loop of `get_student_by_name`
(lines 47-49): first record whose `name` field equals the query value.
A stored name (a string) equals the optional query value exactly when the
query value is `some` of it. -/
def findByName (students : Store) (name : Option String) : Option Student :=
  match students with
  | [] => none
  | (_, s) :: rest => if name = some s.name then some s else findByName rest name

/-- `GET /get-by-name` (lines 45-50).  `name` is an optional query string,
`test` a required query integer: a request without `test` fails validation
with 422.  Otherwise scan the store and return the first name match, or the
`("Data", "Not found")` payload with 200. -/
def get_student_by_name (students : Store) (name : Option String)
    (test : Option Int) : Response :=
  match test with
  | none => (422, Body.validationError)
  | some _ =>
    match findByName students name with
    | some s => (200, Body.studentBody s)
    | none => (200, Body.msg "Data" "Not found")

/-- The loop of `get_student_by_name_combine` (lines 56-58), written out
separately because the source repeats it verbatim; the loop variable shadows
the `student_id` path parameter, which is therefore never consulted. -/
def findByNameCombine (students : Store) (name : Option String) : Option Student :=
  match students with
  | [] => none
  | (_, s) :: rest =>
    if name = some s.name then some s else findByNameCombine rest name

/-- `GET /get-by-name/{student_id}` (lines 54-59): a path parameter
`student_id` and the same two query parameters; the loop shadows
`student_id`, so the response ignores it. -/
def get_student_by_name_combine (students : Store) (student_id : Int)
    (name : Option String) (test : Option Int) : Response :=
  match test with
  | none => (422, Body.validationError)
  | some _ =>
    match findByNameCombine students name with
    | some s => (200, Body.studentBody s)
    | none => (200, Body.msg "Data" "Not found")

/-- `POST /create-student/{student_id}` (lines 62-68): if the id exists,
report `("Error", "Student exists")` with 200 and leave the store alone;
otherwise append the new record (`students[student_id] = student.dict()`)
and return it — the source returns `students[student_id]`, which right after
the assignment is the record just stored. -/
def create_student (students : Store) (student_id : Int) (student : Student) :
    Store × Response :=
  if containsId students student_id then
    (students, (200, Body.msg "Error" "Student exists"))
  else
    (students ++ [(student_id, student)], (200, Body.studentBody student))

/-- `PUT /update-student/{student_id}` (lines 71-84): on a missing id report
`("Error", "Students does not exits")` with 200; otherwise overwrite, one
field at a time, each field whose input is not `None`, and return the full
updated record. -/
def update_student (students : Store) (student_id : Int)
    (student : UpdateStudent) : Store × Response :=
  match lookupId students student_id with
  | none => (students, (200, Body.msg "Error" "Students does not exits"))
  | some s =>
    let s1 := match student.name with
      | some n => { s with name := n }
      | none => s
    let s2 := match student.age with
      | some a => { s1 with age := a }
      | none => s1
    let s3 := match student.year with
      | some y => { s2 with year := y }
      | none => s2
    (setId students student_id s3, (200, Body.studentBody s3))

/-- `DELETE /delete-student/{student_id}` (lines 87-92): on a missing id
report `("Error", "Student does not exists")` with 200; otherwise remove the
entry and report `("Message", "Student deleted successfully")`. -/
def delete_student (students : Store) (student_id : Int) : Store × Response :=
  if containsId students student_id then
    (eraseId students student_id, (200, Body.msg "Message" "Student deleted successfully"))
  else
    (students, (200, Body.msg "Error" "Student does not exists"))

/-! ### Basic lemmas about the store operations -/

theorem containsId_eq_isSome_lookupId (st : Store) (id : Int) :
    containsId st id = (lookupId st id).isSome := by
  induction st with
  | nil => rfl
  | cons hd tl ih =>
    obtain ⟨k, v⟩ := hd
    by_cases h : k = id <;> simp [containsId, lookupId, h, ih]

theorem lookupId_append_right (st : Store) (id : Int) (s : Student)
    (h : containsId st id = false) :
    lookupId (st ++ [(id, s)]) id = some s := by
  induction st with
  | nil => simp [lookupId]
  | cons hd tl ih =>
    obtain ⟨k, v⟩ := hd
    by_cases hk : k = id
    · simp [containsId, hk] at h
    · simp [containsId, hk] at h
      simpa [lookupId, hk] using ih h

theorem lookupId_setId_self (st : Store) (id : Int) (v : Student)
    (h : containsId st id = true) :
    lookupId (setId st id v) id = some v := by
  induction st with
  | nil => simp [containsId] at h
  | cons hd tl ih =>
    obtain ⟨k, w⟩ := hd
    by_cases hk : k = id
    · simp [setId, lookupId, hk]
    · simp [containsId, hk] at h
      simpa [setId, lookupId, hk] using ih h

theorem lookupId_setId_ne (st : Store) (id j : Int) (v : Student)
    (h : j ≠ id) : lookupId (setId st id v) j = lookupId st j := by
  induction st with
  | nil => rfl
  | cons hd tl ih =>
    obtain ⟨k, w⟩ := hd
    by_cases hk : k = id
    · subst hk
      have hkj : ¬ k = j := fun hc => h hc.symm
      simp [setId, lookupId, hkj]
    · by_cases hj : k = j
      · subst hj
        simp [setId, lookupId, hk]
      · simp [setId, lookupId, hk, hj, ih]

theorem keys_setId (st : Store) (id : Int) (v : Student) :
    (setId st id v).map Prod.fst = st.map Prod.fst := by
  induction st with
  | nil => rfl
  | cons hd tl ih =>
    obtain ⟨k, w⟩ := hd
    by_cases hk : k = id <;> simp [setId, hk, ih]

theorem lookupId_eraseId_ne (st : Store) (id j : Int) (h : j ≠ id) :
    lookupId (eraseId st id) j = lookupId st j := by
  induction st with
  | nil => rfl
  | cons hd tl ih =>
    obtain ⟨k, w⟩ := hd
    by_cases hk : k = id
    · subst hk
      have hkj : ¬ k = j := fun hc => h hc.symm
      simp [eraseId, lookupId, hkj]
    · by_cases hj : k = j
      · subst hj
        simp [eraseId, lookupId, hk]
      · simp [eraseId, lookupId, hk, hj, ih]

theorem containsId_eraseId_self (st : Store) (id : Int)
    (hnd : (st.map Prod.fst).Nodup) :
    containsId (eraseId st id) id = false := by
  induction st with
  | nil => rfl
  | cons hd tl ih =>
    obtain ⟨k, w⟩ := hd
    simp only [List.map_cons, List.nodup_cons] at hnd
    by_cases hk : k = id
    · subst hk
      rw [eraseId, if_pos rfl]
      rw [containsId_eq_isSome_lookupId]
      cases hl : lookupId tl k with
      | none => simp
      | some s =>
        exfalso
        have : k ∈ tl.map Prod.fst := by
          clear ih hnd
          induction tl with
          | nil => simp [lookupId] at hl
          | cons hd2 tl2 ih2 =>
            obtain ⟨k2, v2⟩ := hd2
            by_cases hk2 : k2 = k
            · simp [hk2]
            · simp only [lookupId, if_neg hk2] at hl
              simp [ih2 hl]
        exact hnd.1 this
    · rw [eraseId, if_neg hk]
      rw [containsId, if_neg hk]
      exact ih hnd.2

/-! ### Raw store layer

The Python store holds plain dictionaries, so nothing in the data structure
itself forces every record to carry all three keys; that full population is
an invariant maintained by the handlers.  To state and prove it we re-embed
the state-changing part of the handlers over a raw value type in which each
field may be missing. -/

/-- A raw stored dictionary: each of the keys `name`, `age`, `year` may be
present with a value or missing. -/
structure StudentDict where
  name : Option String
  age : Option Int
  year : Option String
deriving DecidableEq, Repr

/-- `student.dict()` applied to a validated, complete `Student` body:
all three keys are present. -/
def Student.toDict (s : Student) : StudentDict :=
  { name := some s.name, age := some s.age, year := some s.year }

/-- The raw store: insertion-ordered association list from id to dictionary. -/
abbrev RawStore := List (Int × StudentDict)

/-- The literal module-level `students` dictionary (lines 7-18): both seed
records carry all three keys. -/
def studentsInitRaw : RawStore :=
  [ (1, { name := some "anurag adarsh", age := some 20, year := some "year 26" }),
    (2, { name := some "mohit", age := some 22, year := some "year 26" }) ]

/-- Raw membership test, `student_id in students`. -/
def rawContains (st : RawStore) (id : Int) : Bool :=
  match st with
  | [] => false
  | (k, _) :: rest => if k = id then true else rawContains rest id

/-- Raw lookup, `students[student_id]` on a present key. -/
def rawLookup (st : RawStore) (id : Int) : Option StudentDict :=
  match st with
  | [] => none
  | (k, v) :: rest => if k = id then some v else rawLookup rest id

/-- Raw in-place assignment to an existing key. -/
def rawSet (st : RawStore) (id : Int) (v : StudentDict) : RawStore :=
  match st with
  | [] => []
  | (k, w) :: rest => if k = id then (k, v) :: rest else (k, w) :: rawSet rest id v

/-- Raw deletion, `del students[student_id]`. -/
def rawErase (st : RawStore) (id : Int) : RawStore :=
  match st with
  | [] => []
  | (k, w) :: rest => if k = id then rest else (k, w) :: rawErase rest id

/-- The store effect of `create_student` (lines 62-68): a present id leaves
the store alone, a fresh id gets `student.dict()` appended. -/
def rawCreate (st : RawStore) (id : Int) (s : Student) : RawStore :=
  if rawContains st id then st else st ++ [(id, s.toDict)]

/-- The three conditional key assignments of `update_student` (lines 76-83):
`students[student_id]['name'] = student.name` sets the `name` key of the
stored dictionary, and likewise for `age` and `year`. -/
def setDictFields (d : StudentDict) (u : UpdateStudent) : StudentDict :=
  let d1 := match u.name with
    | some n => { d with name := some n }
    | none => d
  let d2 := match u.age with
    | some a => { d1 with age := some a }
    | none => d1
  match u.year with
  | some y => { d2 with year := some y }
  | none => d2

/-- The store effect of `update_student` (lines 71-84): a missing id leaves
the store alone, a present one has its dictionary's keys overwritten for
each non-`None` input field. -/
def rawUpdate (st : RawStore) (id : Int) (u : UpdateStudent) : RawStore :=
  match rawLookup st id with
  | none => st
  | some d => rawSet st id (setDictFields d u)

/-- The store effect of `delete_student` (lines 87-92). -/
def rawDelete (st : RawStore) (id : Int) : RawStore :=
  if rawContains st id then rawErase st id else st

/-- One state-changing handler invocation. -/
inductive Op where
  | create : Int → Student → Op
  | update : Int → UpdateStudent → Op
  | delete : Int → Op
deriving DecidableEq, Repr

/-- The store after one handler invocation. -/
def applyOp (st : RawStore) : Op → RawStore
  | Op.create id s => rawCreate st id s
  | Op.update id u => rawUpdate st id u
  | Op.delete id => rawDelete st id

/-- The store after a sequence of handler invocations. -/
def applyOps (st : RawStore) (ops : List Op) : RawStore :=
  ops.foldl applyOp st

/-- A dictionary is fully populated when all three keys are present. -/
def fullyPopulated (d : StudentDict) : Prop :=
  d.name.isSome = true ∧ d.age.isSome = true ∧ d.year.isSome = true

/-- The store invariant: every key present maps to a fully-populated record. -/
def storeInv (st : RawStore) : Prop :=
  ∀ p ∈ st, fullyPopulated p.2

/-! ### Request-body field inputs

A JSON body field can be absent, explicitly `null`, or carry a value.  The
pydantic model `UpdateStudent` declares each field `Optional[...] = None`,
which parses both the absent case and the `null` case to `None`; the handler
then tests `is not None`. -/

/-- A field of an incoming JSON body: absent, JSON `null`, or a value. -/
inductive FieldInput (α : Type) where
  | absent : FieldInput α
  | null : FieldInput α
  | value : α → FieldInput α
deriving DecidableEq, Repr

/-- Modelled from the spec: the parsing of one `Optional[...] = None` pydantic
field, behaviour of the pydantic/FastAPI validation layer, which is not part
of this repository's source.  An absent field takes the default `None` and an
explicit JSON `null` also parses to `None`, so both become `none`. -/
def parseField {α : Type} : FieldInput α → Option α
  | FieldInput.absent => none
  | FieldInput.null => none
  | FieldInput.value v => some v

/-- The `UpdateStudent` value the handler receives for a JSON body whose
three fields are given as `FieldInput`s. -/
def parseUpdateBody (n : FieldInput String) (a : FieldInput Int)
    (y : FieldInput String) : UpdateStudent :=
  { name := parseField n, age := parseField a, year := parseField y }

/-! ### Lemmas for the raw layer -/

theorem storeInv_rawSet (st : RawStore) (id : Int) (v : StudentDict)
    (hst : storeInv st) (hv : fullyPopulated v) : storeInv (rawSet st id v) := by
  induction st with
  | nil => intro p hp; simp [rawSet] at hp
  | cons hd tl ih =>
    obtain ⟨k, w⟩ := hd
    have htl : storeInv tl := fun p hp => hst p (List.mem_cons_of_mem _ hp)
    by_cases hk : k = id
    · intro p hp
      rw [rawSet, if_pos hk] at hp
      rcases List.mem_cons.mp hp with h1 | h2
      · rw [h1]; exact hv
      · exact htl p h2
    · intro p hp
      rw [rawSet, if_neg hk] at hp
      rcases List.mem_cons.mp hp with h1 | h2
      · rw [h1]; exact hst _ (List.mem_cons_self _ _)
      · exact ih htl p h2

theorem storeInv_rawErase (st : RawStore) (id : Int)
    (hst : storeInv st) : storeInv (rawErase st id) := by
  induction st with
  | nil => intro p hp; simp [rawErase] at hp
  | cons hd tl ih =>
    obtain ⟨k, w⟩ := hd
    have htl : storeInv tl := fun p hp => hst p (List.mem_cons_of_mem _ hp)
    by_cases hk : k = id
    · rw [rawErase, if_pos hk]; exact htl
    · intro p hp
      rw [rawErase, if_neg hk] at hp
      rcases List.mem_cons.mp hp with h1 | h2
      · rw [h1]; exact hst _ (List.mem_cons_self _ _)
      · exact ih htl p h2

theorem fullyPopulated_toDict (s : Student) : fullyPopulated s.toDict := by
  exact ⟨rfl, rfl, rfl⟩

theorem fullyPopulated_setDictFields (d : StudentDict) (u : UpdateStudent)
    (hd : fullyPopulated d) : fullyPopulated (setDictFields d u) := by
  obtain ⟨h1, h2, h3⟩ := hd
  unfold setDictFields
  cases u.name <;> cases u.age <;> cases u.year <;>
    simp_all [fullyPopulated]

theorem storeInv_applyOp (st : RawStore) (op : Op) (hst : storeInv st) :
    storeInv (applyOp st op) := by
  cases op with
  | create id s =>
    rw [applyOp, rawCreate]
    by_cases h : rawContains st id
    · rw [if_pos h]; exact hst
    · rw [if_neg h]
      intro p hp
      rcases List.mem_append.mp hp with h1 | h2
      · exact hst p h1
      · rcases List.mem_singleton.mp h2 with h3
        rw [h3]; exact fullyPopulated_toDict s
  | update id u =>
    rw [applyOp, rawUpdate]
    cases hl : rawLookup st id with
    | none => exact hst
    | some d =>
      have hd : fullyPopulated d := by
        have hmem : (id, d) ∈ st := by
          clear hst
          induction st with
          | nil => simp [rawLookup] at hl
          | cons hd2 tl2 ih2 =>
            obtain ⟨k, w⟩ := hd2
            by_cases hk : k = id
            · rw [rawLookup, if_pos hk] at hl
              rcases Option.some_inj.mp hl with h
              rw [← hk, ← h]
              exact (List.mem_cons_self _ _)
            · rw [rawLookup, if_neg hk] at hl
              exact List.mem_cons_of_mem _ (ih2 hl)
        exact hst _ hmem
      exact storeInv_rawSet st id _ hst (fullyPopulated_setDictFields d u hd)
  | delete id =>
    rw [applyOp, rawDelete]
    by_cases h : rawContains st id
    · rw [if_pos h]; exact storeInv_rawErase st id hst
    · rw [if_neg h]; exact hst

theorem storeInv_applyOps (st : RawStore) (ops : List Op) (hst : storeInv st) :
    storeInv (applyOps st ops) := by
  induction ops generalizing st with
  | nil => exact hst
  | cons op rest ih =>
    exact ih (applyOp st op) (storeInv_applyOp st op hst)

theorem storeInv_init : storeInv studentsInitRaw := by
  intro p hp
  rcases List.mem_cons.mp hp with h1 | h2
  · rw [h1]; exact ⟨rfl, rfl, rfl⟩
  · rcases List.mem_singleton.mp h2 with h3
    rw [h3]; exact ⟨rfl, rfl, rfl⟩

/-! ### Helper lemmas about the handlers -/

/-- The record the update handler produces on a present id: each field of the
input that is present overwrites the stored field, each absent field keeps
the stored value. -/
def mergedRecord (s : Student) (u : UpdateStudent) : Student :=
  { name := u.name.getD s.name, age := u.age.getD s.age, year := u.year.getD s.year }

theorem update_student_eq (st : Store) (id : Int) (s : Student)
    (u : UpdateStudent) (h : lookupId st id = some s) :
    update_student st id u
      = (setId st id (mergedRecord s u),
         (200, Body.studentBody (mergedRecord s u))) := by
  rcases u with ⟨un, ua, uy⟩
  cases un <;> cases ua <;> cases uy <;>
    simp [update_student, h, mergedRecord]

theorem create_student_present_eq (st : Store) (id : Int) (s : Student)
    (h : containsId st id = true) :
    create_student st id s = (st, (200, Body.msg "Error" "Student exists")) := by
  simp [create_student, h]

theorem create_student_absent_eq (st : Store) (id : Int) (s : Student)
    (h : containsId st id = false) :
    create_student st id s
      = (st ++ [(id, s)], (200, Body.studentBody s)) := by
  simp [create_student, h]

theorem delete_student_present_eq (st : Store) (id : Int)
    (h : containsId st id = true) :
    delete_student st id
      = (eraseId st id, (200, Body.msg "Message" "Student deleted successfully")) := by
  simp [delete_student, h]

theorem delete_student_absent_eq (st : Store) (id : Int)
    (h : containsId st id = false) :
    delete_student st id
      = (st, (200, Body.msg "Error" "Student does not exists")) := by
  simp [delete_student, h]

theorem setId_of_lookup_self (st : Store) (id : Int) (s : Student)
    (h : lookupId st id = some s) : setId st id s = st := by
  induction st with
  | nil => rfl
  | cons hd tl ih =>
    obtain ⟨k, w⟩ := hd
    by_cases hk : k = id
    · rw [lookupId, if_pos hk] at h
      rcases Option.some_inj.mp h with h2
      rw [setId, if_pos hk, h2]
    · rw [lookupId, if_neg hk] at h
      rw [setId, if_neg hk, ih h]

theorem findByNameCombine_eq (st : Store) (name : Option String) :
    findByNameCombine st name = findByName st name := by
  induction st with
  | nil => rfl
  | cons hd tl ih =>
    obtain ⟨k, s⟩ := hd
    by_cases h : name = some s.name <;>
      simp [findByNameCombine, findByName, h, ih]

theorem findByName_eq_find? (st : Store) (name : Option String) :
    findByName st name
      = Option.map Prod.snd (st.find? (fun p => name == some p.2.name)) := by
  induction st with
  | nil => rfl
  | cons hd tl ih =>
    obtain ⟨k, s⟩ := hd
    by_cases h : name = some s.name
    · simp [findByName, List.find?, h]
    · have hb : (name == some s.name) = false := beq_eq_false_iff_ne.mpr h
      simp [findByName, List.find?, h, hb, ih]

/-! ### The claims -/

/-- C1: for `GET /get-student/{student_id}`, an integer id fails validation
with 422 exactly when it lies outside the open interval (0, 4), and then the
response does not depend on the store (no lookup happens); for an in-bounds
id the response is 404 with detail "Student not found" exactly when the id is
absent from the store, and the stored record with 200 otherwise. -/
theorem get_student_spec (st : Store) (id : Int) :
    ((get_student st id).1 = 422 ↔ ¬(0 < id ∧ id < 4))
    ∧ (¬(0 < id ∧ id < 4) →
        ∀ st' : Store, get_student st' id = (422, Body.validationError))
    ∧ ((0 < id ∧ id < 4) →
        (get_student st id = (404, Body.msg "detail" "Student not found")
          ↔ lookupId st id = none))
    ∧ ((0 < id ∧ id < 4) → ∀ s, lookupId st id = some s →
        get_student st id = (200, Body.studentBody s)) := by
  by_cases hb : 0 < id ∧ id < 4
  · refine ⟨?_, fun h => absurd hb h, fun _ => ?_, fun _ s hs => ?_⟩
    · rw [get_student, if_pos hb]
      cases hl : lookupId st id <;> simp [hb]
    · rw [get_student, if_pos hb]
      cases hl : lookupId st id <;> simp
    · rw [get_student, if_pos hb, hs]
  · refine ⟨?_, fun _ st' => ?_, fun h => absurd h hb, fun h => absurd h hb⟩
    · rw [get_student, if_neg hb]; simp [hb]
    · rw [get_student, if_neg hb]

/-- Witness for C1: id 1 is in bounds and seeded, so the stored record comes
back with 200. -/
theorem get_student_spec_witness :
    get_student studentsInit 1
      = (200, Body.studentBody { name := "anurag adarsh", age := 20, year := "year 26" }) :=
  (get_student_spec studentsInit 1).2.2.2 (by decide)
    { name := "anurag adarsh", age := 20, year := "year 26" } (by decide)

/-- C2: for `PUT /update-student/{student_id}` on an id present in the store,
each present input field overwrites the stored field and each absent one is
kept, the merged record is stored at the id and returned with 200, every
other id's lookup is unchanged, and the key sequence of the store is
unchanged. -/
theorem update_student_spec (st : Store) (id : Int) (s : Student)
    (u : UpdateStudent) (h : lookupId st id = some s) :
    update_student st id u
      = (setId st id (mergedRecord s u),
         (200, Body.studentBody (mergedRecord s u)))
    ∧ lookupId (update_student st id u).1 id = some (mergedRecord s u)
    ∧ (∀ j, j ≠ id → lookupId (update_student st id u).1 j = lookupId st j)
    ∧ ((update_student st id u).1).map Prod.fst = st.map Prod.fst := by
  have hmain := update_student_eq st id s u h
  have hc : containsId st id = true := by
    rw [containsId_eq_isSome_lookupId, h]; rfl
  refine ⟨hmain, ?_, fun j hj => ?_, ?_⟩
  · rw [hmain]
    exact lookupId_setId_self st id (mergedRecord s u) hc
  · rw [hmain]
    exact lookupId_setId_ne st id j (mergedRecord s u) hj
  · rw [hmain]
    exact keys_setId st id (mergedRecord s u)

/-- Witness for C2, the spec's own example: updating record 1 with only
`age := 99` changes only the age, leaving name and year untouched and record
2 alone. -/
theorem update_student_spec_witness :
    update_student studentsInit 1 { name := none, age := some 99, year := none }
      = ([ (1, { name := "anurag adarsh", age := 99, year := "year 26" }),
           (2, { name := "mohit", age := 22, year := "year 26" }) ],
         (200, Body.studentBody { name := "anurag adarsh", age := 99, year := "year 26" })) := by
  have h := (update_student_spec studentsInit 1
      { name := "anurag adarsh", age := 20, year := "year 26" }
      { name := none, age := some 99, year := none } (by decide)).1
  rw [h]; rfl

/-- C3: for `POST /create-student/{student_id}` on an id already in the
store, the response is the `("Error", "Student exists")` payload with status
200 (not a 4xx) and the store — in particular the pre-existing record — is
exactly unchanged. -/
theorem create_student_exists_spec (st : Store) (id : Int) (s : Student)
    (h : containsId st id = true) :
    create_student st id s = (st, (200, Body.msg "Error" "Student exists"))
    ∧ lookupId (create_student st id s).1 id = lookupId st id := by
  have hmain := create_student_present_eq st id s h
  exact ⟨hmain, by rw [hmain]⟩

/-- Witness for C3: creating again at seeded id 1 reports the conflict and
leaves the seed store intact. -/
theorem create_student_exists_spec_witness :
    create_student studentsInit 1 { name := "intruder", age := 1, year := "y" }
      = (studentsInit, (200, Body.msg "Error" "Student exists")) :=
  (create_student_exists_spec studentsInit 1
    { name := "intruder", age := 1, year := "y" } (by decide)).1

/-- C4: for `GET /get-by-name` with the required `test` query parameter
supplied, the response is determined by the first entry, in iteration order,
whose name equals the query value: that record with 200 when one exists
(so at most one record is ever returned), and the `("Data", "Not found")`
payload with 200 — not a 404 — when none does, in particular whenever the
`name` parameter is absent; without `test` the request fails validation
with 422. -/
theorem get_by_name_spec (st : Store) (name : Option String) (t : Int) :
    (st.find? (fun p => name == some p.2.name) = none →
        get_student_by_name st name (some t) = (200, Body.msg "Data" "Not found"))
    ∧ (∀ p, st.find? (fun p => name == some p.2.name) = some p →
        get_student_by_name st name (some t) = (200, Body.studentBody p.2))
    ∧ get_student_by_name st none (some t) = (200, Body.msg "Data" "Not found")
    ∧ (∀ nm, get_student_by_name st nm none = (422, Body.validationError)) := by
  refine ⟨fun h => ?_, fun p hp => ?_, ?_, fun nm => rfl⟩
  · have hf : findByName st name = none := by
      rw [findByName_eq_find?, h]; rfl
    rw [get_student_by_name, hf]
  · have hf : findByName st name = some p.2 := by
      rw [findByName_eq_find?, hp]; rfl
    rw [get_student_by_name, hf]
  · have hf : findByName st none = none := by
      rw [findByName_eq_find?]
      have : st.find? (fun p => (none : Option String) == some p.2.name) = none := by
        rw [List.find?_eq_none]
        intro p _
        simp
      rw [this]; rfl
    rw [get_student_by_name, hf]

/-- Witness for C4: querying the seed store for "mohit" yields record 2,
the first (and only) match. -/
theorem get_by_name_spec_witness :
    get_student_by_name studentsInit (some "mohit") (some 1)
      = (200, Body.studentBody { name := "mohit", age := 22, year := "year 26" }) :=
  (get_by_name_spec studentsInit (some "mohit") 1).2.1
    (2, { name := "mohit", age := 22, year := "year 26" }) (by decide)

/-- C5: for `DELETE /delete-student/{student_id}` on a store with distinct
keys: an absent id gets the `("Error", "Student does not exists")` payload
with 200 and the store is unchanged; a present id has its entry removed —
the id is no longer contained, other ids' lookups unchanged — with the
`("Message", "Student deleted successfully")` payload and 200, and deleting
the same id again yields the "does not exists" response with the store still
the erased one. -/
theorem delete_student_spec (st : Store) (id : Int)
    (hnd : (st.map Prod.fst).Nodup) :
    (containsId st id = false →
        delete_student st id
          = (st, (200, Body.msg "Error" "Student does not exists")))
    ∧ (containsId st id = true →
        delete_student st id
          = (eraseId st id, (200, Body.msg "Message" "Student deleted successfully"))
        ∧ containsId (eraseId st id) id = false
        ∧ (∀ j, j ≠ id → lookupId (eraseId st id) j = lookupId st j)
        ∧ delete_student (eraseId st id) id
            = (eraseId st id, (200, Body.msg "Error" "Student does not exists"))) := by
  have herased : containsId (eraseId st id) id = false :=
    containsId_eraseId_self st id hnd
  refine ⟨fun h => delete_student_absent_eq st id h, fun h => ?_⟩
  exact ⟨delete_student_present_eq st id h, herased,
    fun j hj => lookupId_eraseId_ne st id j hj,
    delete_student_absent_eq (eraseId st id) id herased⟩

/-- Witness for C5: deleting seeded id 2 removes it; id 1 survives, and a
repeat delete reports "does not exists". -/
theorem delete_student_spec_witness :
    delete_student studentsInit 2
      = (eraseId studentsInit 2,
         (200, Body.msg "Message" "Student deleted successfully")) :=
  ((delete_student_spec studentsInit 2 (by decide)).2 (by decide)).1

/-- C6: `GET /get-by-name/{student_id}` responds exactly as `GET
/get-by-name` on the same store, `name` and `test`: the path parameter
`student_id` never influences the response. -/
theorem combine_eq_by_name_spec (st : Store) (sid : Int)
    (name : Option String) (test : Option Int) :
    get_student_by_name_combine st sid name test
      = get_student_by_name st name test := by
  cases test with
  | none => rfl
  | some t =>
    rw [get_student_by_name_combine, get_student_by_name,
      findByNameCombine_eq st name]

/-- C7: round-trip — creating at a fresh id inside the (0, 4) bound returns
the stored record with 200, and an immediate `GET /get-student` on that id
returns the same record with 200. -/
theorem create_then_get_spec (st : Store) (id : Int) (s : Student)
    (h1 : 0 < id) (h2 : id < 4) (h3 : containsId st id = false) :
    create_student st id s = (st ++ [(id, s)], (200, Body.studentBody s))
    ∧ get_student (create_student st id s).1 id = (200, Body.studentBody s) := by
  have hc := create_student_absent_eq st id s h3
  refine ⟨hc, ?_⟩
  rw [hc, get_student, if_pos ⟨h1, h2⟩, lookupId_append_right st id s h3]

/-- Witness for C7: creating at fresh in-bounds id 3 then getting it. -/
theorem create_then_get_spec_witness :
    create_student studentsInit 3 { name := "new", age := 19, year := "year 27" }
      = (studentsInit ++ [(3, { name := "new", age := 19, year := "year 27" })],
         (200, Body.studentBody { name := "new", age := 19, year := "year 27" }))
    ∧ get_student (create_student studentsInit 3
        { name := "new", age := 19, year := "year 27" }).1 3
      = (200, Body.studentBody { name := "new", age := 19, year := "year 27" }) :=
  create_then_get_spec studentsInit 3 { name := "new", age := 19, year := "year 27" }
    (by decide) (by decide) (by decide)

/-- C8: starting from the seeded store, after any sequence of create, update
and delete handler invocations every key present in the raw store maps to a
fully-populated record — the `name`, `age` and `year` keys are all present
(with values of the declared types, enforced by the value type). -/
theorem storeInv_reachable_spec (ops : List Op) :
    storeInv (applyOps studentsInitRaw ops) :=
  storeInv_applyOps studentsInitRaw ops storeInv_init

/-- C9: create imposes no range bound — creating at any fresh id outside
(0, 4) succeeds, stores the record and returns it with 200, yet
`GET /get-student` on that id answers 422, so the record is unreachable
through it; update and delete likewise accept such ids and operate
normally. -/
theorem no_bound_on_mutations_spec (st : Store) (id : Int) (s : Student)
    (u : UpdateStudent) (hout : ¬(0 < id ∧ id < 4))
    (habs : containsId st id = false) :
    create_student st id s = (st ++ [(id, s)], (200, Body.studentBody s))
    ∧ lookupId (st ++ [(id, s)]) id = some s
    ∧ get_student (st ++ [(id, s)]) id = (422, Body.validationError)
    ∧ update_student (st ++ [(id, s)]) id u
        = (setId (st ++ [(id, s)]) id (mergedRecord s u),
           (200, Body.studentBody (mergedRecord s u)))
    ∧ delete_student (st ++ [(id, s)]) id
        = (eraseId (st ++ [(id, s)]) id,
           (200, Body.msg "Message" "Student deleted successfully")) := by
  have hl := lookupId_append_right st id s habs
  have hc : containsId (st ++ [(id, s)]) id = true := by
    rw [containsId_eq_isSome_lookupId, hl]; rfl
  refine ⟨create_student_absent_eq st id s habs, hl, ?_, ?_, ?_⟩
  · rw [get_student, if_neg hout]
  · exact update_student_eq (st ++ [(id, s)]) id s u hl
  · exact delete_student_present_eq (st ++ [(id, s)]) id hc

/-- Witness for C9: id 999 is far outside the bound; create succeeds and the
follow-up get is rejected with 422. -/
theorem no_bound_on_mutations_spec_witness :
    create_student studentsInit 999 { name := "ghost", age := 1, year := "y" }
      = (studentsInit ++ [(999, { name := "ghost", age := 1, year := "y" })],
         (200, Body.studentBody { name := "ghost", age := 1, year := "y" }))
    ∧ lookupId (studentsInit ++ [(999, { name := "ghost", age := 1, year := "y" })]) 999
        = some { name := "ghost", age := 1, year := "y" }
    ∧ get_student (studentsInit ++ [(999, { name := "ghost", age := 1, year := "y" })]) 999
        = (422, Body.validationError)
    ∧ update_student (studentsInit ++ [(999, { name := "ghost", age := 1, year := "y" })]) 999
          { name := none, age := none, year := none }
        = (setId (studentsInit ++ [(999, { name := "ghost", age := 1, year := "y" })]) 999
             (mergedRecord { name := "ghost", age := 1, year := "y" }
               { name := none, age := none, year := none }),
           (200, Body.studentBody (mergedRecord { name := "ghost", age := 1, year := "y" }
               { name := none, age := none, year := none })))
    ∧ delete_student (studentsInit ++ [(999, { name := "ghost", age := 1, year := "y" })]) 999
        = (eraseId (studentsInit ++ [(999, { name := "ghost", age := 1, year := "y" })]) 999,
           (200, Body.msg "Message" "Student deleted successfully")) :=
  no_bound_on_mutations_spec studentsInit 999 { name := "ghost", age := 1, year := "y" }
    { name := none, age := none, year := none } (by decide) (by decide)

/-- C10: a body field supplied as JSON `null` parses, through the
`Optional[...] = None` pydantic fields, to the same `UpdateStudent` as an
absent field, so the update behaves identically in the two cases for each of
the three fields; with every field `null`, the stored record is returned and
kept verbatim — `null` is never written into the store. -/
theorem update_null_eq_absent_spec (st : Store) (id : Int) (s : Student)
    (h : lookupId st id = some s) :
    (∀ (a : FieldInput Int) (y : FieldInput String),
        update_student st id (parseUpdateBody FieldInput.null a y)
          = update_student st id (parseUpdateBody FieldInput.absent a y))
    ∧ (∀ (n : FieldInput String) (y : FieldInput String),
        update_student st id (parseUpdateBody n FieldInput.null y)
          = update_student st id (parseUpdateBody n FieldInput.absent y))
    ∧ (∀ (n : FieldInput String) (a : FieldInput Int),
        update_student st id (parseUpdateBody n a FieldInput.null)
          = update_student st id (parseUpdateBody n a FieldInput.absent))
    ∧ update_student st id
        (parseUpdateBody FieldInput.null FieldInput.null FieldInput.null)
        = (st, (200, Body.studentBody s)) := by
  refine ⟨fun a y => rfl, fun n y => rfl, fun n a => rfl, ?_⟩
  have hm : mergedRecord s
      (parseUpdateBody FieldInput.null FieldInput.null FieldInput.null) = s := rfl
  rw [update_student_eq st id s _ h, hm, setId_of_lookup_self st id s h]

/-- Witness for C10: an all-null update body on seeded id 1 returns the seed
record and leaves the store as it was. -/
theorem update_null_eq_absent_spec_witness :
    update_student studentsInit 1
        (parseUpdateBody FieldInput.null FieldInput.null FieldInput.null)
      = (studentsInit,
         (200, Body.studentBody { name := "anurag adarsh", age := 20, year := "year 26" })) :=
  (update_null_eq_absent_spec studentsInit 1
    { name := "anurag adarsh", age := 20, year := "year 26" } (by decide)).2.2.2

end MyApi
